import Mathlib

/-!
Verification of the toypad USB bridge (`main.py`) against its design
specification.  The Python source is shallowly embedded: byte lists stand for
Python byte sequences, association lists (`List (String × _)`) stand for
Python `dict`s keyed by the hex UID string, and fallible code paths return
`Except`.  Python `%` and slicing semantics are reproduced exactly
(`List.take` truncates like a Python slice; `32 - n` on `Nat` is `0` when
`n > 32`, matching `[0] * (32 - n) == []` in Python).
-/

namespace Toypad

/-- `TOYPAD_INIT` literal from the source: the fixed initialization command. -/
def TOYPAD_INIT : List Nat :=
  [0x55, 0x0f, 0xb0, 0x01, 0x28, 0x63, 0x29, 0x20, 0x4c, 0x45, 0x47, 0x4f,
   0x20, 0x32, 0x30, 0x31, 0x34, 0xf7, 0x00, 0x00, 0x00, 0x00, 0x00, 0x00,
   0x00, 0x00, 0x00, 0x00, 0x00, 0x00]

/-- `MSG_NORMAL = 0x55` from the source. -/
def MSG_NORMAL : Nat := 0x55

/-- `TAG_ADDED = 0` from the source. -/
def TAG_ADDED : Nat := 0

/-- `BGCOLOR = [12, 12, 12]` from the source. -/
def BGCOLOR : List Nat := [12, 12, 12]

/-- `calculate_checksum(command)`: `sum(command) % 256`. -/
def calculate_checksum (command : List Nat) : Nat :=
  command.sum % 256

/-- The byte list built by `send_command` before it is written to the USB
endpoint: `command + [checksum]`, then `+ [0x00] * (32 - len(message))`.
Python multiplies a list by a negative number to the empty list, which `Nat`
subtraction reproduces, so no failure path exists for long commands. -/
def encodeMessage (command : List Nat) : List Nat :=
  let message := command ++ [calculate_checksum command]
  message ++ List.replicate (32 - message.length) 0

/-- Python slice `l[a:b]` for `0 ≤ a ≤ b` (truncating at the end of the
list, never failing). -/
def pySlice (l : List Nat) (a b : Nat) : List Nat :=
  (l.drop a).take (b - a)

/-- One hex digit, lowercase, as produced by Python `bytes.hex()`. -/
def hexDigit (n : Nat) : Char :=
  if n < 10 then Char.ofNat (48 + n) else Char.ofNat (87 + n)

/-- Two lowercase hex characters for one byte. -/
def byteHex (b : Nat) : String :=
  String.mk [hexDigit (b / 16), hexDigit (b % 16)]

/-- `bytes(l).hex()`: the canonical lowercase hex string of a byte list. -/
def bytesHex (l : List Nat) : String :=
  String.join (l.map byteHex)

instance {ε α : Type} [DecidableEq ε] [DecidableEq α] :
    DecidableEq (Except ε α) := fun a b =>
  match a, b with
  | .ok x, .ok y => decidable_of_iff (x = y) (by simp)
  | .ok _, .error _ => isFalse (by simp)
  | .error _, .ok _ => isFalse (by simp)
  | .error e, .error f => decidable_of_iff (e = f) (by simp)

/-- A decoded inbound report: `pad_num = bytelist[2]`,
`action = bytelist[5]`, `uid_bytes = bytes(bytelist[6:13])`. -/
structure Report where
  pad : Nat
  action : Nat
  uid : List Nat
  deriving Repr, DecidableEq

/-- How the read loop can dispose of a raw frame without producing a report:
`skipped` models `continue` after `if not bytelist or bytelist[0] != 0x56`;
`indexError` models the uncaught `IndexError` that `bytelist[2]` or
`bytelist[5]` raises on a short frame (it is not a `usb.core.USBError`, so
the `except` clause does not catch it and the listener thread dies). -/
inductive DecodeError where
  | skipped
  | indexError
  deriving Repr, DecidableEq

/-- The frame-decoding prefix of one `listen_for_tags` iteration
(lines 110–116 of the source): skip empty frames and frames whose first
byte is not `0x56`; then `bytelist[2]`, `bytelist[6:13]` and `bytelist[5]`
are read, the indexing raising `IndexError` when the list is shorter than 6.
There is no check that the frame is exactly 32 bytes long. -/
def decodeReport (bytelist : List Nat) : Except DecodeError Report :=
  match bytelist with
  | [] => .error .skipped
  | b :: _ =>
      if b ≠ 0x56 then .error .skipped
      else if bytelist.length < 6 then .error .indexError
      else .ok ⟨bytelist.getD 2 0, bytelist.getD 5 0, pySlice bytelist 6 13⟩

/-- Association-list lookup, modelling `key in dict` / `dict[key]`. -/
def dictLookup {α : Type} : List (String × α) → String → Option α
  | [], _ => none
  | (k, v) :: rest, key => if k = key then some v else dictLookup rest key

/-- Association-list insert/update, modelling `dict[key] = value`. -/
def dictInsert {α : Type} (d : List (String × α)) (key : String) (value : α) :
    List (String × α) :=
  match d with
  | [] => [(key, value)]
  | (k, v) :: rest =>
      if k = key then (key, value) :: rest
      else (k, v) :: dictInsert rest key value

/-- Association-list removal, modelling `dict.pop(key)` (the returned value
is obtained separately via `dictLookup`). -/
def dictErase {α : Type} (d : List (String × α)) (key : String) :
    List (String × α) :=
  match d with
  | [] => []
  | (k, v) :: rest =>
      if k = key then rest
      else (k, v) :: dictErase rest key

/-- `self.detected_tags`: hex UID string → pad number. -/
abbrev TagTable := List (String × Nat)

/-- One entry of `self.tag_config`: a dict with `url` and `sound` fields. -/
structure TagInfo where
  url : String
  sound : String
  deriving Repr, DecidableEq

/-- The ambient mutable state that lines 118–136 read and write besides
`self.detected_tags`: the module-level `ENABLE_WRITE` flag, the
`MASTERTAG` environment value (`None` when unset), and `self.tag_config`. -/
structure Globals where
  enableWrite : Bool
  masterTag : Option String
  tagConfig : List (String × TagInfo)
  deriving Repr, DecidableEq

/-- `get_or_create_tag_info(uid)`: returns the stored info, inserting the
empty entry `{"url": "", "sound": ""}` first when the UID is new (and, when
`ENABLE_WRITE` is set, also saving the file — a side effect outside this
model's state). -/
def get_or_create_tag_info (g : Globals) (uid : String) : Globals × TagInfo :=
  match dictLookup g.tagConfig uid with
  | some info => (g, info)
  | none =>
      let info : TagInfo := ⟨"", ""⟩
      ({ g with tagConfig := dictInsert g.tagConfig uid info }, info)

/-- The semantic events delivered through the `tagNew` / `tagChange` /
`tagGone` callbacks. -/
inductive Event where
  | added (uid : String) (pad : Nat)
  | moved (uid : String) (oldPad newPad : Nat)
  | removed (uid : String) (pad : Nat)
  deriving Repr, DecidableEq

/-- The tag-processing body of one `listen_for_tags` iteration
(lines 116–136 of the source), applied to a decoded report: computes the hex
UID, toggles `ENABLE_WRITE` on the master tag, and performs the
added/moved/removed bookkeeping on `detected_tags`, returning the updated
ambient state, the updated table, and the at-most-one callback event. -/
def processFull (g : Globals) (t : TagTable) (r : Report) :
    Globals × TagTable × Option Event :=
  let uid := bytesHex r.uid
  if r.action = TAG_ADDED then
    let g := if g.masterTag = some uid then
               { g with enableWrite := !g.enableWrite }
             else g
    match dictLookup t uid with
    | none =>
        let t := dictInsert t uid r.pad
        let gi := get_or_create_tag_info g uid
        (gi.1, t, some (.added uid r.pad))
    | some oldPad =>
        if oldPad ≠ r.pad then
          (g, dictInsert t uid r.pad, some (.moved uid oldPad r.pad))
        else
          (g, t, none)
  else
    match dictLookup t uid with
    | some oldPad => (g, dictErase t uid, some (.removed uid oldPad))
    | none => (g, t, none)

/-- Errors a pad-color command can surface synchronously.  `notConnected`
and `validationError` are modelled from the spec's error taxonomy (§7) for
comparison; `noneTypeError` is the uncontrolled `TypeError` that
`dev[0]` raises in `send_command` when `self.device` is `None`. -/
inductive CmdError where
  | notConnected
  | validationError
  | noneTypeError
  deriving Repr, DecidableEq

/-- `send_command(dev, command)`: looks up the out endpoint on the device
handle — raising `TypeError` when the handle is `None` — and writes the
encoded 32-byte-padded message.  The returned list is what is written. -/
def send_command (dev : Option Unit) (command : List Nat) :
    Except CmdError (List Nat) :=
  match dev with
  | none => .error .noneTypeError
  | some _ => .ok (encodeMessage command)

/-- The command list built by `set_pad_color`:
`[MSG_NORMAL, 0x06, 0xc0, 0x02, pad] + color`. -/
def set_pad_color_command (pad : Nat) (color : List Nat) : List Nat :=
  [MSG_NORMAL, 0x06, 0xc0, 0x02, pad] ++ color

/-- The command list built by `set_pad_color_fade`
(default `count = 0x01` in the source). -/
def set_pad_color_fade_command (pad : Nat) (color : List Nat)
    (fade_time count : Nat) : List Nat :=
  ([MSG_NORMAL, 0x08, 0xc2, 0x02, pad, fade_time, count]) ++ color

/-- The command list built by `set_pad_color_flash`
(default `count = 0x02` in the source). -/
def set_pad_color_flash_command (pad : Nat) (color : List Nat)
    (on_time off_time count : Nat) : List Nat :=
  ([MSG_NORMAL, 0x09, 0xc3, 0x02, pad, on_time, off_time, count]) ++ color

/-- `set_pad_color(pad, color)`: builds the command and hands it straight to
`send_command`; no argument validation, no connection-state check. -/
def set_pad_color (dev : Option Unit) (pad : Nat) (color : List Nat) :
    Except CmdError (List Nat) :=
  send_command dev (set_pad_color_command pad color)

/-- `set_pad_color_fade(pad, color, fade_time, count)`: same shape. -/
def set_pad_color_fade (dev : Option Unit) (pad : Nat) (color : List Nat)
    (fade_time count : Nat) : Except CmdError (List Nat) :=
  send_command dev (set_pad_color_fade_command pad color fade_time count)

/-- `set_pad_color_flash(pad, color, on_time, off_time, count)`: same
shape. -/
def set_pad_color_flash (dev : Option Unit) (pad : Nat) (color : List Nat)
    (on_time off_time count : Nat) : Except CmdError (List Nat) :=
  send_command dev (set_pad_color_flash_command pad color on_time off_time count)

/-- The state the listener thread and `handle_disconnection` manipulate:
the `self.listening` flag, the `self.device` handle (`none` models the
Python `None` assigned on disconnection), the ambient globals/config, and
`self.detected_tags`. -/
structure SupState where
  listening : Bool
  device : Option Unit
  globals : Globals
  table : TagTable
  deriving DecidableEq

/-- What one USB interrupt read can yield: a frame, or a
`usb.core.USBError` carrying an errno (`110` is the read timeout). -/
inductive USBReadResult where
  | frame (bytes : List Nat)
  | usbError (errno : Int)
  deriving Repr, DecidableEq

/-- The immediate effect of entering `handle_disconnection`: the handle
reference is dropped (`self.device = None`).  Nothing else — in particular
`self.detected_tags` is left untouched. -/
def handle_disconnection_entry (s : SupState) : SupState :=
  { s with device := none }

/-- One iteration of the `while not self.device` reconnection loop inside
`handle_disconnection`: sleep two seconds, then `usb.core.find(...)`; when
the device is found it is configured and re-initialized.  `found` is the
outcome of the `find` call (a `USBError` from the `try` body behaves like
not-found: `continue`).  The loop condition reads only `self.device`; it
never consults `self.listening`. -/
def reconnect_step (found : Bool) (s : SupState) : SupState :=
  match s.device with
  | some _ => s
  | none => if found then { s with device := some () } else s

/-- Running the reconnection loop through a finite prefix of `find`
outcomes. -/
def reconnect_run (avail : List Bool) (s : SupState) : SupState :=
  avail.foldl (fun s f => reconnect_step f s) s

/-- One full iteration of the `listen_for_tags` body given the outcome of
the endpoint read: decoded reports go through the tag bookkeeping, a
timeout (`errno == 110`) is silently ignored, any other `USBError` enters
`handle_disconnection`, and an `IndexError` from decoding escapes the
`except usb.core.USBError` clause and kills the thread (`.error`). -/
def listen_iteration (s : SupState) (r : USBReadResult) :
    Except DecodeError (SupState × Option Event) :=
  match r with
  | .frame bytes =>
      match decodeReport bytes with
      | .error .skipped => .ok (s, none)
      | .error .indexError => .error .indexError
      | .ok rep =>
          let out := processFull s.globals s.table rep
          .ok ({ s with globals := out.1, table := out.2.1 }, out.2.2)
  | .usbError errno =>
      if errno ≠ 110 then .ok (handle_disconnection_entry s, none)
      else .ok (s, none)

/-- The frames written while `handle_disconnection` reconnects: after
`set_configuration()` succeeds, only `self.init()` runs, i.e. exactly the
`TOYPAD_INIT` frame.  No pad-color frame is sent on reconnection. -/
def handle_disconnection_writes : List (List Nat) :=
  [encodeMessage TOYPAD_INIT]

/-- The frames written by the program's startup path: `Toypad.__init__`
sends the init frame, then the `__main__` block sets `BGCOLOR` on pads 0,
1 and 2. -/
def main_startup_writes : List (List Nat) :=
  [encodeMessage TOYPAD_INIT,
   encodeMessage (set_pad_color_command 0 BGCOLOR),
   encodeMessage (set_pad_color_command 1 BGCOLOR),
   encodeMessage (set_pad_color_command 2 BGCOLOR)]

/-! ## Theorems -/

/-- C1: `TagTracker.process` — the `(detected_tags, event)` part of one
`listen_for_tags` iteration — follows the five-case rule, whatever the
ambient globals: an Added report (action code 0) with the UID absent
inserts `(uid, pad)` and emits `Added`; with the UID on a different pad it
re-points the entry and emits `Moved`; with the UID on the same pad it
changes nothing and emits nothing; a Removed report (any nonzero action
code) with the UID present deletes the entry and emits `Removed` with the
stored pad; with the UID absent it changes nothing and emits nothing.  The
`Option Event` result makes "at most one event per report" intrinsic. -/
theorem tagTracker_five_case_rule (g : Globals) (t : TagTable) (r : Report) :
    (r.action = 0 → dictLookup t (bytesHex r.uid) = none →
      (processFull g t r).2 =
        (dictInsert t (bytesHex r.uid) r.pad,
         some (Event.added (bytesHex r.uid) r.pad))) ∧
    (∀ old, r.action = 0 → dictLookup t (bytesHex r.uid) = some old →
      old ≠ r.pad →
      (processFull g t r).2 =
        (dictInsert t (bytesHex r.uid) r.pad,
         some (Event.moved (bytesHex r.uid) old r.pad))) ∧
    (r.action = 0 → dictLookup t (bytesHex r.uid) = some r.pad →
      (processFull g t r).2 = (t, (none : Option Event))) ∧
    (∀ old, r.action ≠ 0 → dictLookup t (bytesHex r.uid) = some old →
      (processFull g t r).2 =
        (dictErase t (bytesHex r.uid),
         some (Event.removed (bytesHex r.uid) old))) ∧
    (r.action ≠ 0 → dictLookup t (bytesHex r.uid) = none →
      (processFull g t r).2 = (t, (none : Option Event))) := by
  refine ⟨fun ha hl => ?_, fun old ha hl hne => ?_, fun ha hl => ?_,
          fun old ha hl => ?_, fun ha hl => ?_⟩
  · simp [processFull, TAG_ADDED, ha, hl, get_or_create_tag_info]
  · simp [processFull, TAG_ADDED, ha, hl, hne]
  · simp [processFull, TAG_ADDED, ha, hl]
  · simp [processFull, TAG_ADDED, ha, hl]
  · simp [processFull, TAG_ADDED, ha, hl]

/-- Witness for C1: the spec's scenarios A (add), B (move), keepalive
re-report, C (remove), and a stray removal, at concrete inputs. -/
theorem tagTracker_five_case_rule_witness :
    (processFull ⟨false, none, []⟩ [] ⟨1, 0, [1, 2, 3, 4, 5, 6, 7]⟩).2 =
      ([("01020304050607", 1)], some (Event.added "01020304050607" 1)) ∧
    (processFull ⟨false, none, []⟩ [("01020304050607", 1)]
        ⟨2, 0, [1, 2, 3, 4, 5, 6, 7]⟩).2 =
      ([("01020304050607", 2)], some (Event.moved "01020304050607" 1 2)) ∧
    (processFull ⟨false, none, []⟩ [("01020304050607", 1)]
        ⟨1, 0, [1, 2, 3, 4, 5, 6, 7]⟩).2 =
      ([("01020304050607", 1)], (none : Option Event)) ∧
    (processFull ⟨false, none, []⟩ [("01020304050607", 2)]
        ⟨0, 7, [1, 2, 3, 4, 5, 6, 7]⟩).2 =
      ([], some (Event.removed "01020304050607" 2)) ∧
    (processFull ⟨false, none, []⟩ [] ⟨0, 7, [1, 2, 3, 4, 5, 6, 7]⟩).2 =
      ([], (none : Option Event)) := by
  have A := tagTracker_five_case_rule ⟨false, none, []⟩ []
    ⟨1, 0, [1, 2, 3, 4, 5, 6, 7]⟩
  have B := tagTracker_five_case_rule ⟨false, none, []⟩ [("01020304050607", 1)]
    ⟨2, 0, [1, 2, 3, 4, 5, 6, 7]⟩
  have K := tagTracker_five_case_rule ⟨false, none, []⟩ [("01020304050607", 1)]
    ⟨1, 0, [1, 2, 3, 4, 5, 6, 7]⟩
  have C := tagTracker_five_case_rule ⟨false, none, []⟩ [("01020304050607", 2)]
    ⟨0, 7, [1, 2, 3, 4, 5, 6, 7]⟩
  have D := tagTracker_five_case_rule ⟨false, none, []⟩ []
    ⟨0, 7, [1, 2, 3, 4, 5, 6, 7]⟩
  exact ⟨(A.1 rfl (by decide)).trans (by decide),
         ((B.2.1 1 rfl (by decide) (by decide))).trans (by decide),
         K.2.2.1 rfl (by decide),
         (C.2.2.2.1 2 (by decide) (by decide)).trans (by decide),
         D.2.2.2.2 (by decide) (by decide)⟩

/-- C2 counterexample: `send_command` never fails on an over-long command;
for a 32-byte command (opcode+payload+1 = 33 > 32) it silently builds a
33-byte message (no padding, no error), so the encoded frame is not
32 bytes long and no caller-contract failure occurs. -/
theorem encode_overlong_counterexample :
    encodeMessage (List.replicate 32 0) = List.replicate 32 0 ++ [0] ∧
    (encodeMessage (List.replicate 32 0)).length = 33 := by decide

/-- C2 amended: when `opcode+payload+1 ≤ 32`, the message `send_command`
writes is exactly 32 bytes, starts with the command, carries
`sum(command) % 256` immediately after it, and is zero everywhere after the
checksum; when `opcode+payload+1 > 32` the code does not fail but emits the
unpadded over-long `command ++ [checksum]`. -/
theorem encode_frame_invariants (command : List Nat) :
    (command.length + 1 ≤ 32 →
      (encodeMessage command).length = 32 ∧
      (encodeMessage command).take command.length = command ∧
      (encodeMessage command).getD command.length 1 = command.sum % 256 ∧
      ∀ i, command.length + 1 ≤ i → i < 32 →
        (encodeMessage command).getD i 1 = 0) ∧
    (32 < command.length + 1 →
      encodeMessage command = command ++ [command.sum % 256]) := by
  have hlem : encodeMessage command =
      command ++ [command.sum % 256] ++
        List.replicate (32 - (command.length + 1)) 0 := by
    simp [encodeMessage, calculate_checksum]
  constructor
  · intro h
    refine ⟨?_, ?_, ?_, ?_⟩
    · rw [hlem]
      simp only [List.length_append, List.length_replicate, List.length_cons,
        List.length_nil]
      omega
    · rw [hlem, List.append_assoc]
      exact List.take_left' rfl
    · rw [hlem, List.append_assoc, List.getD_eq_getElem?_getD,
          List.getElem?_append_right (Nat.le_refl _), Nat.sub_self]
      simp
    · intro i h1 h2
      have hle : (command ++ [command.sum % 256]).length ≤ i := by
        simp only [List.length_append, List.length_cons, List.length_nil]
        omega
      have hcond : i - (command ++ [command.sum % 256]).length <
          32 - (command.length + 1) := by
        simp only [List.length_append, List.length_cons, List.length_nil]
        omega
      rw [hlem, List.getD_eq_getElem?_getD, List.getElem?_append_right hle,
          List.getElem?_replicate, if_pos hcond]
      rfl
  · intro h
    rw [hlem, Nat.sub_eq_zero_of_le (by omega), List.replicate_zero,
        List.append_nil]

/-- Witness for C2 at the concrete `set_pad_color(0, BGCOLOR)` command
(8 bytes): the frame is 32 bytes and the checksum byte at offset 8 is
`321 % 256 = 65`. -/
theorem encode_frame_invariants_witness :
    (encodeMessage (set_pad_color_command 0 BGCOLOR)).length = 32 ∧
    (encodeMessage (set_pad_color_command 0 BGCOLOR)).getD 8 1 = 65 := by
  have h := (encode_frame_invariants (set_pad_color_command 0 BGCOLOR)).1
    (by decide)
  exact ⟨h.1, h.2.2.1.trans (by decide)⟩

/-- C3 counterexample: the decoder does not enforce the 32-byte length at
all — a 13-byte frame beginning with the `0x56` marker is accepted and
fully parsed — and a short marked frame (here 3 bytes) raises an
uncontrolled `IndexError` at `bytelist[5]`, not a controlled `ParseError`
(the `except usb.core.USBError` clause does not catch it). -/
theorem decodeReport_counterexample :
    decodeReport [0x56, 0, 1, 0, 0, 0, 1, 2, 3, 4, 5, 6, 7] =
      .ok ⟨1, 0, [1, 2, 3, 4, 5, 6, 7]⟩ ∧
    decodeReport [0x56, 0, 1] = .error .indexError := by decide

/-- C3 amended: the decoder skips (only) empty frames and frames whose
first byte is not `0x56`; a marked frame shorter than 6 bytes raises an
uncontrolled `IndexError`; any marked frame of length at least 6 — of any
length, 32 or not — is accepted, with `padIndex` from byte 2, `actionCode`
from byte 5 and the UID from the slice `[6:13]` (up to 7 bytes, fewer when
the frame ends early). -/
theorem decodeReport_behaviour (l : List Nat) :
    (l.headD 0 ≠ 0x56 → decodeReport l = .error .skipped) ∧
    (l.headD 0 = 0x56 → l.length < 6 → decodeReport l = .error .indexError) ∧
    (l.headD 0 = 0x56 → 6 ≤ l.length →
      decodeReport l = .ok ⟨l.getD 2 0, l.getD 5 0, pySlice l 6 13⟩) := by
  cases l with
  | nil =>
      refine ⟨fun _ => rfl, fun h => ?_, fun h => ?_⟩ <;> simp at h
  | cons b rest =>
      refine ⟨fun h => ?_, fun h hlen => ?_, fun h hlen => ?_⟩ <;>
        simp only [List.headD_cons] at h
      · simp [decodeReport, h]
      · simp only [List.length_cons] at hlen
        simp [decodeReport, h]
        omega
      · simp only [List.length_cons] at hlen
        simp [decodeReport, h]
        omega

/-- Witness for C3: a well-formed 32-byte frame (marker plus 31 zero
bytes) decodes to the all-zeros report. -/
theorem decodeReport_behaviour_witness :
    decodeReport (0x56 :: List.replicate 31 0) =
      .ok ⟨0, 0, List.replicate 7 0⟩ := by
  have h := (decodeReport_behaviour (0x56 :: List.replicate 31 0)).2.2
    (by decide) (by decide)
  exact h.trans (by decide)

/-- C4 counterexample: a fatal `USBError` (errno 19, device gone) while a
tag is in the table makes the loop call `handle_disconnection`, which drops
the handle (`self.device = None`) — but `self.detected_tags` keeps its
entry: the table is not cleared on the `Active → Disconnected`
transition. -/
theorem readloop_fatal_error_counterexample :
    listen_iteration
        ⟨true, some (), ⟨false, none, []⟩, [("01020304050607", 1)]⟩
        (.usbError 19) =
      .ok (⟨true, none, ⟨false, none, []⟩, [("01020304050607", 1)]⟩, none) ∧
    ([("01020304050607", 1)] : TagTable) ≠ [] := by decide

/-- C4 amended: any `USBError` with errno other than 110 on the read path
drops the device handle and enters reconnection, leaving the tag table
(and everything else) unchanged rather than clearing it; errno 110 — the
read timeout — is not an error: the loop continues with the state exactly
as it was. -/
theorem readloop_usb_error_handling (s : SupState) (errno : Int) :
    (errno ≠ 110 →
      listen_iteration s (.usbError errno) =
        .ok ({ s with device := none }, none)) ∧
    listen_iteration s (.usbError 110) = .ok (s, none) := by
  constructor
  · intro h
    simp [listen_iteration, handle_disconnection_entry, h]
  · simp [listen_iteration]

/-- Witness for C4: errno 5 (I/O fault) on a concrete active state drops
the handle and keeps the rest; the table stays empty because it was
empty. -/
theorem readloop_usb_error_handling_witness :
    listen_iteration ⟨true, some (), ⟨false, none, []⟩, []⟩ (.usbError 5) =
      .ok (⟨true, none, ⟨false, none, []⟩, []⟩, none) := by
  have h := (readloop_usb_error_handling
    ⟨true, some (), ⟨false, none, []⟩, []⟩ 5).1 (by decide)
  exact h.trans (by decide)

/-- C5 counterexample: tag processing is not free of effects outside the
table: an Added report whose UID equals `MASTERTAG` toggles the global
`ENABLE_WRITE` flag and, being a new tag, also inserts an entry into
`self.tag_config` — the ambient state after the call differs from the
ambient state before it. -/
theorem process_mutates_globals_counterexample :
    (processFull ⟨false, some "01020304050607", []⟩ []
        ⟨1, 0, [1, 2, 3, 4, 5, 6, 7]⟩).1 =
      ⟨true, some "01020304050607", [("01020304050607", ⟨"", ""⟩)]⟩ ∧
    (⟨true, some "01020304050607", [("01020304050607", ⟨"", ""⟩)]⟩ :
        Globals) ≠
      ⟨false, some "01020304050607", []⟩ := by decide

/-- C5 amended: the `(table', event)` result is a deterministic function
of `(table, report)` alone — two runs under arbitrarily different ambient
globals (`ENABLE_WRITE`, `MASTERTAG`, `tag_config`) produce identical
tables and events — but the code does read and mutate that ambient state
on the side (master-tag toggle, config-entry creation). -/
theorem process_output_independent_of_globals (g g' : Globals)
    (t : TagTable) (r : Report) :
    (processFull g t r).2 = (processFull g' t r).2 := by
  by_cases ha : r.action = TAG_ADDED <;>
    cases hl : dictLookup t (bytesHex r.uid) <;>
      simp [processFull, ha, hl, get_or_create_tag_info, apply_ite]

/-- C6 counterexample: a `set_pad_color` call while the handle is `None`
(the disconnected window) does not fail with a synchronous `NotConnected`:
it raises the uncontrolled `TypeError` from subscripting `None` in
`send_command` — a different failure than the spec's `NotConnected`. -/
theorem command_noneType_counterexample :
    set_pad_color none 0 [255, 0, 0] = .error .noneTypeError ∧
    (Except.error CmdError.noneTypeError : Except CmdError (List Nat)) ≠
      .error .notConnected := by decide

/-- C6 amended: no connection-state check exists — none of the three
commands ever returns `NotConnected`; with no device handle each one
instead raises the uncontrolled `TypeError`.  (No queueing or retry exists:
each call performs exactly one write attempt.) -/
theorem commands_never_notConnected (dev : Option Unit) (pad : Nat)
    (color : List Nat) (fade_time on_time off_time count : Nat) :
    set_pad_color dev pad color ≠ .error .notConnected ∧
    set_pad_color_fade dev pad color fade_time count ≠
      .error .notConnected ∧
    set_pad_color_flash dev pad color on_time off_time count ≠
      .error .notConnected ∧
    set_pad_color none pad color = .error .noneTypeError ∧
    set_pad_color_fade none pad color fade_time count =
      .error .noneTypeError ∧
    set_pad_color_flash none pad color on_time off_time count =
      .error .noneTypeError := by
  cases dev <;>
    simp [set_pad_color, set_pad_color_fade, set_pad_color_flash,
      send_command]

/-- C7 counterexample: an out-of-range pad index (5) and color component
(999) are neither rejected nor clamped: the command is encoded and written
as-is, with the raw 999 inside the frame — no `ValidationError` is
returned before encoding. -/
theorem no_argument_validation_counterexample :
    set_pad_color (some ()) 5 [999, 0, 0] =
      .ok ([0x55, 0x06, 0xc0, 0x02, 5, 999, 0, 0, 9] ++
        List.replicate 23 0) ∧
    set_pad_color (some ()) 5 [999, 0, 0] ≠ .error .validationError := by
  decide

/-- C7 amended: the command surface performs no argument validation at
all — `ValidationError` is never returned for any arguments — and every
call with a device handle delegates its arguments directly to the frame
encoding. -/
theorem commands_never_validationError (dev : Option Unit) (pad : Nat)
    (color : List Nat) (fade_time on_time off_time count : Nat) :
    set_pad_color dev pad color ≠ .error .validationError ∧
    set_pad_color_fade dev pad color fade_time count ≠
      .error .validationError ∧
    set_pad_color_flash dev pad color on_time off_time count ≠
      .error .validationError ∧
    set_pad_color (some ()) pad color =
      .ok (encodeMessage (set_pad_color_command pad color)) ∧
    set_pad_color_fade (some ()) pad color fade_time count =
      .ok (encodeMessage
        (set_pad_color_fade_command pad color fade_time count)) ∧
    set_pad_color_flash (some ()) pad color on_time off_time count =
      .ok (encodeMessage
        (set_pad_color_flash_command pad color on_time off_time count)) := by
  cases dev <;>
    simp [set_pad_color, set_pad_color_fade, set_pad_color_flash,
      send_command]

/-- C8 counterexample: reconnection does not restore the idle background
color: the only frame `handle_disconnection` writes after the device
reappears is the init frame; the `BGCOLOR` set-color frame for pad 0, 1 or
2 is not among its writes. -/
theorem reconnect_no_background_restore_counterexample :
    encodeMessage (set_pad_color_command 0 BGCOLOR) ∉
      handle_disconnection_writes ∧
    encodeMessage (set_pad_color_command 1 BGCOLOR) ∉
      handle_disconnection_writes ∧
    encodeMessage (set_pad_color_command 2 BGCOLOR) ∉
      handle_disconnection_writes := by decide

/-- C8 amended: the idle background color is applied to each pad exactly
once, by the `__main__` startup sequence; a reconnection writes no
set-color frame for any pad whatsoever (only the init frame), so pad
colors are not reset on transitions back into the active state. -/
theorem reconnect_writes_only_init :
    (∀ pad, encodeMessage (set_pad_color_command pad BGCOLOR) ∉
      handle_disconnection_writes) ∧
    main_startup_writes.count
      (encodeMessage (set_pad_color_command 0 BGCOLOR)) = 1 ∧
    main_startup_writes.count
      (encodeMessage (set_pad_color_command 1 BGCOLOR)) = 1 ∧
    main_startup_writes.count
      (encodeMessage (set_pad_color_command 2 BGCOLOR)) = 1 := by
  refine ⟨fun pad h => ?_, by decide, by decide, by decide⟩
  simp only [handle_disconnection_writes, List.mem_singleton] at h
  have h1 := congrArg (fun l => l.getD 1 0) h
  simp [encodeMessage, calculate_checksum, set_pad_color_command,
    MSG_NORMAL, BGCOLOR, TOYPAD_INIT, List.getD] at h1

/-- C9: the claim is right and the code is wrong — `close()` sets
`self.listening := False` and joins the listener thread, but the
`while not self.device` reconnection loop inside `handle_disconnection`
never reads the `listening` flag: its outcome is invariant under the flag
(first conjunct), and after five 2-second backoff iterations with shutdown
already requested and the device still absent the state is unchanged, the
loop guard still holds, and it keeps retrying (second conjunct). -/
theorem reconnect_ignores_shutdown :
    (∀ avail s b, reconnect_run avail { s with listening := b } =
      { reconnect_run avail s with listening := b }) ∧
    reconnect_run [false, false, false, false, false]
        ⟨false, none, ⟨false, none, []⟩, []⟩ =
      ⟨false, none, ⟨false, none, []⟩, []⟩ := by
  constructor
  · intro avail
    induction avail with
    | nil => intro s b; rfl
    | cons f rest ih =>
        intro s b
        have hstep : reconnect_step f { s with listening := b } =
            { reconnect_step f s with listening := b } := by
          cases s with
          | mk l d g t => cases d <;> cases f <;> rfl
        simp only [reconnect_run, List.foldl_cons] at ih ⊢
        rw [hstep, ih]
  · decide

/-- C10: every `Moved` event carries distinct pads: the `tagChange`
callback fires only under the guard `self.detected_tags[uid] != pad_num`,
so an emitted `Moved{uid, oldPad, newPad}` always has `oldPad ≠ newPad`,
for every table, report and ambient state. -/
theorem moved_event_pads_differ (g : Globals) (t : TagTable) (r : Report)
    (uid : String) (oldPad newPad : Nat)
    (h : (processFull g t r).2.2 = some (Event.moved uid oldPad newPad)) :
    oldPad ≠ newPad := by
  by_cases ha : r.action = TAG_ADDED
  · cases hl : dictLookup t (bytesHex r.uid) with
    | none => simp [processFull, ha, hl, get_or_create_tag_info] at h
    | some old =>
        by_cases hp : old = r.pad
        · simp [processFull, ha, hl, hp] at h
        · simp [processFull, ha, hl, hp] at h
          rcases h with ⟨-, h2, h3⟩
          omega
  · cases hl : dictLookup t (bytesHex r.uid) <;>
      simp [processFull, ha, hl] at h

/-- Witness for C10: a concrete move from pad 1 to pad 2 emits
`Moved("01020304050607", 1, 2)`, and indeed `1 ≠ 2`. -/
theorem moved_event_pads_differ_witness :
    (processFull ⟨false, none, []⟩ [("01020304050607", 1)]
        ⟨2, 0, [1, 2, 3, 4, 5, 6, 7]⟩).2.2 =
      some (Event.moved "01020304050607" 1 2) ∧
    (1 : Nat) ≠ 2 :=
  ⟨by decide,
   moved_event_pads_differ ⟨false, none, []⟩ [("01020304050607", 1)]
     ⟨2, 0, [1, 2, 3, 4, 5, 6, 7]⟩ "01020304050607" 1 2 (by decide)⟩

end Toypad
